import Mathlib

/-!
Verification development for the leadgraph repository.

The acquisition engine (src/enrichment/websiteCrawler.js), the direct fetch
tier (src/enrichment/simpleFetch.js), the external crawler client
(src/enrichment/crawl4aiClient.js) and the orchestrator loops (src/main.js)
are shallowly embedded below.  External effects (the network, the browser,
the spawned python process, the OpenAI endpoint) are modelled as explicit
environment values describing how the outside world behaves during one run;
every function of the source becomes a total Lean function of that
environment.  JavaScript strings are modelled as Lean strings (the sources
only ever handle them as character sequences; JS `.length` counts UTF-16
units, which coincides with character count on the ASCII/BMP inputs used
here).
-/

namespace LeadGraph

/-! ### JavaScript string primitives

`jsIncludes s sub` models `s.includes(sub)`, `jsToLower` models
`s.toLowerCase()` (ASCII), `jsTrim` models `s.trim()`, `jsSplitChar` models
`s.split(c)` for a one-character separator. They are written over `List Char`
so concrete witnesses evaluate inside the kernel. -/

/-- Containment of a character pattern, checked at every start index. -/
def containsAt (pat : List Char) : List Char → Bool
  | [] => pat.isPrefixOf []
  | c :: cs => pat.isPrefixOf (c :: cs) || containsAt pat cs

def jsIncludes (s sub : String) : Bool :=
  containsAt sub.data s.data

def jsToLower (s : String) : String :=
  String.mk (s.data.map Char.toLower)

def jsWs (c : Char) : Bool :=
  c == ' ' || c == '\t' || c == '\n' || c == '\r' || c == '\x0b' || c == '\x0c'

def jsTrim (s : String) : String :=
  String.mk (((s.data.dropWhile jsWs).reverse.dropWhile jsWs).reverse)

def jsSplitCharAux (sep : Char) : List Char → List Char → List String
  | [], acc => [String.mk acc.reverse]
  | x :: xs, acc =>
    if x == sep then String.mk acc.reverse :: jsSplitCharAux sep xs []
    else jsSplitCharAux sep xs (x :: acc)

def jsSplitChar (sep : Char) (s : String) : List String :=
  jsSplitCharAux sep s.data []

/-! ### Direct Fetch Tier (src/enrichment/simpleFetch.js)

`simpleFetch` issues one request with a hard timeout; the behaviour of the
network is an explicit `NetworkEvent`: either a response (status, status
text, body) arrives, or the request errors (connection failure, or the
abort fired by the timeout - both reject the js `fetch` promise and land in
the same catch). -/

inductive NetworkEvent where
  | responds (status : Nat) (statusText : String) (body : String)
  | netError (msg : String)
deriving DecidableEq

structure FetchResult where
  success : Bool
  html : String := ""
  text : String := ""
  error : String := ""
deriving DecidableEq

/-- One left-to-right pass of `html.replace(/<[^>]*>/g, ' ')`.  When
`inTag` is true a `<` known to be closed by a later `>` has already been
replaced by a single emitted space and its `[^>]*>` part is being consumed
(the class `[^>]*` admits every character but `>`, a nested `<` included).
A `<` with no `>` anywhere after it cannot start a match, and no later
position can start one either, so the remainder is kept verbatim. -/
def stripTagsGo : Bool → List Char → List Char
  | _, [] => []
  | true, c :: cs => if c = '>' then stripTagsGo false cs else stripTagsGo true cs
  | false, c :: cs =>
    if c = '<' then
      if cs.contains '>' then ' ' :: stripTagsGo true cs else c :: cs
    else c :: stripTagsGo false cs

/-- `.replace(/\s+/g, ' ')`: every maximal whitespace run collapses to a
single space (`prevWs` records whether the previous character belonged to a
run already replaced). -/
def collapseWsAux : Bool → List Char → List Char
  | _, [] => []
  | prevWs, c :: cs =>
    if jsWs c then
      if prevWs then collapseWsAux true cs else ' ' :: collapseWsAux true cs
    else c :: collapseWsAux false cs

/-- The derived plain-text rendering of fetched markup:
`html.replace(/<[^>]*>/g, ' ').replace(/\s+/g, ' ').trim()`. -/
def fetchText (html : String) : String :=
  jsTrim (String.mk (collapseWsAux false (stripTagsGo false html.data)))

/-- `simpleFetch` of src/enrichment/simpleFetch.js: non-ok status, network
error and timeout-abort all come back as `success = false` with a reason;
an ok response yields the body and its plain-text rendering.  `response.ok`
is status 200-299. -/
def simpleFetch (ev : NetworkEvent) : FetchResult :=
  match ev with
  | .responds status statusText body =>
    if 200 ≤ status ∧ status ≤ 299 then
      { success := true, html := body, text := fetchText body }
    else
      { success := false, error := "HTTP " ++ toString status ++ ": " ++ statusText }
  | .netError msg => { success := false, error := msg }

/-! ### AcquisitionResult (src/enrichment/websiteCrawler.js)

`crawlWebsite` returns `{ pages, metadata, htmlContent }`.  The metadata
object is either the populated one built by `buildCrawlResult` or the empty
object literal of the failure paths; `Option Metadata` models the two, and
the `eff...` accessors model the consumers' `crawlResult.metadata.flag ||
false` reads.  The result carries no explicit success field: callers test
`crawlResult.htmlContent` for truthiness, which `successIndicator`
models. -/

structure PageRecord where
  url : String
  title : String
  html : String
deriving DecidableEq

structure CrawlMetadata where
  pageCount : Nat
  hasContactForm : Bool
  hasBookingWidget : Bool
  hasChatWidget : Bool
deriving DecidableEq

structure CrawlResult where
  pages : List PageRecord
  metadata : Option CrawlMetadata
  htmlContent : String
deriving DecidableEq

def emptyCrawlResult : CrawlResult :=
  { pages := [], metadata := none, htmlContent := "" }

def CrawlResult.effHasContactForm (r : CrawlResult) : Bool :=
  (r.metadata.map CrawlMetadata.hasContactForm).getD false

def CrawlResult.effHasBookingWidget (r : CrawlResult) : Bool :=
  (r.metadata.map CrawlMetadata.hasBookingWidget).getD false

def CrawlResult.effHasChatWidget (r : CrawlResult) : Bool :=
  (r.metadata.map CrawlMetadata.hasChatWidget).getD false

def CrawlResult.successIndicator (r : CrawlResult) : Bool :=
  r.htmlContent != ""

/-! ### extractTitle (src/enrichment/websiteCrawler.js)

`html.match(/<title[^>]*>([^<]+)<\/title>/i)`: scanning left to right, the
first position where a case-insensitive `<title`, a run of non-`>`, a `>`,
a nonempty run of non-`<` (the capture) and a case-insensitive `</title>`
line up; the capture is trimmed, no match gives the empty string.  The
greedy runs are deterministic here because neither class can cross its own
delimiter, so backtracking never helps. -/

def lcStarts : List Char → List Char → Bool
  | [], _ => true
  | _ :: _, [] => false
  | p :: ps, c :: cs => p.toLower == c.toLower && lcStarts ps cs

def titleAt (cs : List Char) : Option String :=
  if lcStarts "<title".data cs then
    let afterOpen := cs.drop 6
    match afterOpen.dropWhile (fun c => c ≠ '>') with
    | '>' :: afterGt =>
      let cap := afterGt.takeWhile (fun c => c ≠ '<')
      if cap.isEmpty then none
      else if lcStarts "</title>".data (afterGt.dropWhile (fun c => c ≠ '<')) then
        some (String.mk cap)
      else none
    | _ => none
  else none

def findTitle : List Char → Option String
  | [] => none
  | c :: cs =>
    match titleAt (c :: cs) with
    | some t => some t
    | none => findTitle cs

def extractTitle (html : String) : String :=
  match findTitle html.data with
  | some t => jsTrim t
  | none => ""

/-! ### buildCrawlResult (src/enrichment/websiteCrawler.js) -/

def buildCrawlResult (crawledPages : List PageRecord) (allHtml : String)
    (_domain : String) : CrawlResult :=
  let hasContactForm := jsIncludes (jsToLower allHtml) "contact" &&
    (jsIncludes (jsToLower allHtml) "form" || jsIncludes (jsToLower allHtml) "submit")
  let hasBookingWidget := jsIncludes (jsToLower allHtml) "book" &&
    (jsIncludes (jsToLower allHtml) "appointment" || jsIncludes (jsToLower allHtml) "schedule")
  let hasChatWidget := jsIncludes (jsToLower allHtml) "chat" ||
    jsIncludes (jsToLower allHtml) "intercom" || jsIncludes (jsToLower allHtml) "drift"
  { pages := crawledPages,
    metadata := some
      { pageCount := crawledPages.length,
        hasContactForm := hasContactForm,
        hasBookingWidget := hasBookingWidget,
        hasChatWidget := hasChatWidget },
    htmlContent := allHtml }

/-! ### Browser Rendering Tier (crawlWithPlaywright)

The browser's behaviour during one invocation is a `BrowserOutcome`:
`launchError` (chromium.launch rejects, before any session exists),
`setupError` (browser.newContext or context.newPage rejects, after the
session was acquired but before the inner try/finally is entered),
`navError` (page.goto / waitForTimeout / content / title rejects inside the
inner try, caught as pageError with the finally closing the browser), or
`rendered html title` (navigation succeeded).  The trace records whether a
session was acquired and whether browser.close() ran before the function
returned. -/

inductive BrowserOutcome where
  | launchError (msg : String)
  | setupError (msg : String)
  | navError (msg : String)
  | rendered (html : String) (title : String)
deriving DecidableEq

def BrowserOutcome.isError : BrowserOutcome → Bool
  | .rendered _ _ => false
  | _ => true

structure PwTrace where
  launched : Bool
  closed : Bool
deriving DecidableEq

def crawlWithPlaywright (startUrl domain : String) (b : BrowserOutcome) :
    CrawlResult × PwTrace :=
  match b with
  | .launchError _ =>
    -- launch rejected: the outer catch returns the empty result; no session existed
    (emptyCrawlResult, { launched := false, closed := false })
  | .setupError _ =>
    -- newContext/newPage rejected: control jumps to the outer catch without
    -- ever reaching the try/finally, so browser.close() is not executed
    (emptyCrawlResult, { launched := true, closed := false })
  | .navError _ =>
    -- pageError caught, finally closes the browser; crawledPages stays empty
    (emptyCrawlResult, { launched := true, closed := true })
  | .rendered html title =>
    (buildCrawlResult [{ url := startUrl, title := title, html := html }] html domain,
     { launched := true, closed := true })

/-! ### Tiered Acquisition Engine (crawlWebsite)

The environment fixes the outside world for one run: `urlHost` is the value
of `new URL(startUrl).hostname` (`none` when the constructor throws, which
the engine's boundary catch converts to the empty result), `network` drives
the direct fetch tier and `browser` the Playwright tier.  The trace counts
tier invocations. -/

structure CrawlEnv where
  urlHost : Option String
  network : NetworkEvent
  browser : BrowserOutcome

structure EngineTrace where
  fetchCalls : Nat
  playwrightCalls : Nat
  browserLaunches : Nat
  browserCloses : Nat
deriving DecidableEq

def noTierTrace : EngineTrace :=
  { fetchCalls := 0, playwrightCalls := 0, browserLaunches := 0, browserCloses := 0 }

def startUrlOf (websiteUrl : String) : String :=
  if websiteUrl.startsWith "http" then websiteUrl else "https://" ++ websiteUrl

def boolToNat (b : Bool) : Nat := if b then 1 else 0

/-- The escalation step shared by the failed and blocked branches:
`return await crawlWithPlaywright(startUrl, domain, maxPages, options)`. -/
def escalate (startUrl domain : String) (b : BrowserOutcome) :
    CrawlResult × EngineTrace :=
  let (r, pw) := crawlWithPlaywright startUrl domain b
  (r, { fetchCalls := 1, playwrightCalls := 1,
        browserLaunches := boolToNat pw.launched,
        browserCloses := boolToNat pw.closed })

def isBlockedHtml (html : String) : Bool :=
  jsIncludes html "403 Forbidden" || jsIncludes html "Access Denied" ||
    jsIncludes html "captcha" || jsIncludes html "Cloudflare" ||
    html.length < 5000

/-- `crawlWebsite` of src/enrichment/websiteCrawler.js.  A missing or empty
website URL returns the empty result before any tier runs; the direct fetch
runs first; a usable fetch (success, more than 1000 characters, no block
marker, not suspiciously small) returns the single-page result; anything
else escalates to Playwright; a throw inside the body (here only the URL
constructor) is caught at the boundary and becomes the empty result. -/
def crawlWebsite (websiteUrl : Option String) (env : CrawlEnv) :
    CrawlResult × EngineTrace :=
  match websiteUrl with
  | none => (emptyCrawlResult, noTierTrace)
  | some u =>
    if u.isEmpty then (emptyCrawlResult, noTierTrace)
    else
      match env.urlHost with
      | none => (emptyCrawlResult, noTierTrace)
      | some domain =>
        let startUrl := startUrlOf u
        let simpleResult := simpleFetch env.network
        if simpleResult.success && simpleResult.html != "" &&
            simpleResult.html.length > 1000 then
          if !isBlockedHtml simpleResult.html then
            (buildCrawlResult
              [{ url := startUrl, title := extractTitle simpleResult.html,
                 html := simpleResult.html }]
              simpleResult.text domain,
             { fetchCalls := 1, playwrightCalls := 0,
               browserLaunches := 0, browserCloses := 0 })
          else escalate startUrl domain env.browser
        else escalate startUrl domain env.browser

/-- Empty-but-valid acquisition result as the spec describes it: success
indicator false, no pages, every effective metadata flag false. -/
def CrawlResult.emptyValid (r : CrawlResult) : Prop :=
  r.successIndicator = false ∧ r.pages = [] ∧
    r.effHasContactForm = false ∧ r.effHasBookingWidget = false ∧
    r.effHasChatWidget = false

/-! ### Enrichment unit (src/main.js, enrichment phase)

One unit crawls its record's website and merges the extracted signals.  The
lead record models exactly the fields the unit reads or writes
(`contacts.emails`, `contacts.phones`, `online.website`, `online.socials`,
`signals.websiteSignals`, `signals.techSignals`, and `ai` for the later
generation stage).  The four extractors live outside this repository's
visible sources, so each is an oracle that either yields its value or
throws; in the source all four extraction calls precede the first mutation
of the record. -/

structure Socials where
  facebook : String
  instagram : String
  linkedin : String
deriving DecidableEq

structure WebsiteSignals where
  hasHttps : Bool
  hasContactForm : Bool
  hasBookingWidget : Bool
  hasChatWidget : Bool
deriving DecidableEq

structure AIContent where
  coldEmail : String
  voicemail : String
  sms : String
  generatedAt : Nat
deriving DecidableEq

structure Lead where
  emails : List String
  phones : List String
  website : String
  socials : Option Socials
  websiteSignals : Option WebsiteSignals
  techSignals : Option (List (String × Bool))
  ai : Option AIContent
deriving DecidableEq

structure ExtractorEnv where
  emails : Except String (List String)
  phones : Except String (List String)
  socials : Except String Socials
  tech : Except String (List (String × Bool))

/-- The whole signal-merge block of the unit (src/main.js lines 232-249),
applied to a record in the source's statement order. -/
def mergeSignals (crawlResult : CrawlResult) (emails phones : List String)
    (socials : Socials) (tech : List (String × Bool)) (lead : Lead) : Lead :=
  let lead := if emails.length > 0 then { lead with emails := lead.emails ++ emails } else lead
  let lead := if phones.length > 0 then { lead with phones := lead.phones ++ phones } else lead
  let lead := { lead with socials := some socials }
  let lead := { lead with websiteSignals := some (WebsiteSignals.mk
    (lead.website.startsWith "https") crawlResult.effHasContactForm
    crawlResult.effHasBookingWidget crawlResult.effHasChatWidget) }
  { lead with techSignals := some tech }

/-- The try-block of one enrichment unit: crawl already done, the guarded
extraction + merge.  All four extractions run before the first assignment,
so a throw from any of them leaves the record untouched. -/
def enrichBody (crawlResult : CrawlResult) (ex : ExtractorEnv) (lead : Lead) :
    Except String Lead :=
  if crawlResult.htmlContent != "" then
    match ex.emails with
    | .error e => .error e
    | .ok emails =>
      match ex.phones with
      | .error e => .error e
      | .ok phones =>
        match ex.socials with
        | .error e => .error e
        | .ok socials =>
          match ex.tech with
          | .error e => .error e
          | .ok tech => .ok (mergeSignals crawlResult emails phones socials tech lead)
  else .ok lead

/-- One enrichment unit with its local catch: any throw is logged and the
record is returned unmodified. -/
def enrichUnit (env : CrawlEnv) (ex : ExtractorEnv) (lead : Lead) : Lead :=
  let crawlResult := (crawlWebsite (some lead.website) env).1
  match enrichBody crawlResult ex lead with
  | .ok enriched => enriched
  | .error _ => lead

/-! ### Batch Concurrency Controller (src/main.js, enrichment loop)

`for (let i = 0; i < leads.length; i += batchSize)` with `batchSize = 2`:
each iteration slices the next two units, runs them under `Promise.all`
(all of the batch settles before the loop continues - each unit's rejection
is already caught inside the unit) and sleeps 500ms when further units
remain (`i + batchSize < leadsToEnrich.length`). -/

def enrichmentBatchSize : Nat := 2

def enrichmentPacingMs : Nat := 500

/-- The consecutive `slice(i, i + 2)` batches of the loop. -/
def enrichBatches {α : Type} : List α → List (List α)
  | [] => []
  | [a] => [[a]]
  | a :: b :: rest => [a, b] :: enrichBatches rest

/-- The whole enrichment loop: the per-unit work `f` (total - the unit
catches its own failures), returning every unit's outcome in order together
with the total pacing delay slept between batches. -/
def enrichPhase {α β : Type} (f : α → β) : List α → List β × Nat
  | [] => ([], 0)
  | [a] => ([f a], 0)
  | a :: b :: rest =>
    let recurse := enrichPhase f rest
    ([f a, f b] ++ recurse.1, (if rest.isEmpty then 0 else enrichmentPacingMs) + recurse.2)

/-! ### Sequential Rate-Limited Caller (src/main.js AI loop and
src/ai/outreachDrafts.js)

`generateOutreach` never rejects: disabled or missing key return the empty
outreach before any call, a non-ok response or a transport error is caught
and returns the empty outreach, an ok response is parsed.  The response
parser (`parseOutreachResponse`, total JS code wrapped in its own catch
that still returns the outreach object) is abstracted as a total function.
The loop awaits each call, stores `lead.ai` when any channel is nonempty,
and sleeps 1000ms whenever a further record remains. -/

structure Outreach where
  coldEmail : String
  voicemail : String
  sms : String
deriving DecidableEq

def emptyOutreach : Outreach := { coldEmail := "", voicemail := "", sms := "" }

inductive AIEvent where
  | ok (content : String)
  | httpError (status : Nat) (statusText : String)
  | netError (msg : String)
deriving DecidableEq

def generateOutreach (enabled hasKey : Bool) (parseResponse : String → Outreach)
    (ev : AIEvent) : Outreach :=
  if !enabled then emptyOutreach
  else if !hasKey then emptyOutreach
  else
    match ev with
    | .ok content => parseResponse content
    | .httpError _ _ => emptyOutreach
    | .netError _ => emptyOutreach

def aiDelayMs : Nat := 1000

/-- Per-record behaviour of the generation call: how the endpoint answers
and how many milliseconds the awaited call takes to settle. -/
structure AIRecordEnv where
  event : AIEvent
  callMs : Nat
deriving DecidableEq

/-- The AI outreach loop over the records, threading the wall clock: for
each record the time `generateOutreach` is invoked is recorded (with the
key present this is the issue time of the external call - the steps before
the fetch are synchronous), the call settles after `callMs`, the record is
updated when any channel came back nonempty, and 1000ms elapse before the
next record whenever one remains. -/
def aiPhase (hasKey : Bool) (parseResponse : String → Outreach) :
    List (Lead × AIRecordEnv) → Nat → List Lead × List Nat
  | [], _ => ([], [])
  | (lead, aenv) :: rest, now =>
    let callTime := now
    let outreach := generateOutreach true hasKey parseResponse aenv.event
    let afterCall := now + (if hasKey then aenv.callMs else 0)
    let lead1 :=
      if outreach.coldEmail != "" || outreach.voicemail != "" || outreach.sms != "" then
        { lead with ai := some (AIContent.mk outreach.coldEmail outreach.voicemail
          outreach.sms afterCall) }
      else lead
    let next := if rest.isEmpty then afterCall else afterCall + aiDelayMs
    let recurse := aiPhase hasKey parseResponse rest next
    (lead1 :: recurse.1, callTime :: recurse.2)

/-! ### External Crawler Tier (src/enrichment/crawl4aiClient.js, crawlUrl)

One invocation spawns the python wrapper, writes the single JSON request to
stdin and closes it, and races the close event of the process against the
`(timeout + 5)` second timer: whichever settles the promise first decides
the outcome (a close arriving at or after the deadline finds the promise
already rejected by the timer, which also killed the process).  On a clean
exit only the last line of the accumulated stdout is parsed as JSON
(`output.trim().split('\n')`, last element); `JSON.parse` is abstracted as
an oracle.  Every rejection is caught by the surrounding try and returned
as `success = false` with the message. -/

structure CrawlResponse where
  success : Bool
  content : String := ""
  error : String := ""
deriving DecidableEq

inductive ProcEvent where
  | closes (code : Nat) (stdout stderr : String) (elapsedMs : Nat)
  | hangs
deriving DecidableEq

structure ProcTrace where
  stdinData : String
  stdinClosed : Bool
  killed : Bool
deriving DecidableEq

def crawlGraceSecs : Nat := 5

/-- `JSON.stringify({ url, timeout })` (the url is assumed to need no JSON
escaping, as every url the client is handed does). -/
def jsonRequest (url : String) (timeout : Nat) : String :=
  "\x7b\"url\":\"" ++ url ++ "\",\"timeout\":" ++ toString timeout ++ "\x7d"

/-- `output.trim().split('\n')` and then the final element. -/
def lastLine (output : String) : String :=
  (jsSplitChar '\n' (jsTrim output)).getLastD ""

def crawlUrl (url : String) (timeout : Nat)
    (parseJson : String → Option CrawlResponse) (ev : ProcEvent) :
    CrawlResponse × ProcTrace :=
  let written : ProcTrace :=
    { stdinData := jsonRequest url timeout, stdinClosed := true, killed := false }
  let deadlineMs := (timeout + crawlGraceSecs) * 1000
  match ev with
  | .closes code stdout stderr elapsedMs =>
    if elapsedMs < deadlineMs then
      if code = 0 then
        match parseJson (lastLine stdout) with
        | some resp => (resp, written)
        | none =>
          ({ success := false,
             error := "Failed to parse Python output: " ++ String.mk (stdout.data.take 200) },
           written)
      else
        ({ success := false,
           error := if stderr != "" then stderr else "Python script failed" },
         written)
    else
      ({ success := false, error := "Crawl timeout" }, { written with killed := true })
  | .hangs =>
    ({ success := false, error := "Crawl timeout" }, { written with killed := true })

/-- The generation-call outcomes the loop treats as a failed call. -/
def AIEvent.isFail : AIEvent → Bool
  | .ok _ => false
  | .httpError _ _ => true
  | .netError _ => true

/-! ### Concrete run environments used by the witnesses -/

def wHtmlPlain : String := String.mk (List.replicate 8000 'a')

def w1Env : CrawlEnv :=
  { urlHost := some "example.com", network := .responds 200 "OK" wHtmlPlain,
    browser := .rendered "" "" }

def w2Env : CrawlEnv :=
  { urlHost := some "example.com",
    network := .netError "This operation was aborted",
    browser := .navError "page.goto: Timeout 15000ms exceeded" }

def wData3 : List Char := "Access Denied".data ++ List.replicate 2987 'a'

def wHtml3 : String := String.mk wData3

def w3Env : CrawlEnv :=
  { urlHost := some "blocked.example.com",
    network := .responds 200 "OK" wHtml3,
    browser := .navError "page.goto: Timeout 15000ms exceeded" }

def wData9 : List Char := "contactsubmit".data ++ List.replicate 7987 'a'

def wHtml9 : String := String.mk wData9

def w9Env : CrawlEnv :=
  { urlHost := some "example.com", network := .responds 200 "OK" wHtml9,
    browser := .rendered "" "" }

def wParse : String → Option CrawlResponse := fun s =>
  if s = "RESP" then some { success := true, content := "body", error := "" } else none

def wLeadA : Lead :=
  { emails := [], phones := [], website := "https://a.example", socials := none,
    websiteSignals := none, techSignals := none, ai := none }

def wLeadB : Lead := { wLeadA with website := "https://b.example" }

def wLeadC : Lead := { wLeadA with website := "https://c.example" }

def wAIRecords : List (Lead × AIRecordEnv) :=
  [(wLeadA, { event := .ok "generated A", callMs := 250 }),
   (wLeadB, { event := .netError "fetch failed", callMs := 40 }),
   (wLeadC, { event := .ok "generated C", callMs := 5 })]

def wParseOutreach : String → Outreach :=
  fun _ => { coldEmail := "Subject: hi", voicemail := "vm", sms := "sms" }

/-! ## Theorems -/

/-! ### Shared helper lemmas about the engine -/

theorem emptyValid_emptyCrawlResult : emptyCrawlResult.emptyValid := by
  refine ⟨by decide, rfl, rfl, rfl, rfl⟩

theorem escalate_playwrightCalls (s d : String) (b : BrowserOutcome) :
    (escalate s d b).2.playwrightCalls = 1 := by
  cases b <;> rfl

theorem escalate_error_result (s d : String) (b : BrowserOutcome)
    (hb : b.isError = true) : (escalate s d b).1 = emptyCrawlResult := by
  cases b <;> simp_all [escalate, crawlWithPlaywright, BrowserOutcome.isError]

theorem escalate_result (s d : String) (b : BrowserOutcome) :
    (escalate s d b).1 = (crawlWithPlaywright s d b).1 := by
  cases b <;> rfl

/-- Path split of the engine for a nonempty URL with a parsable host: the
run is either the usable single-page direct-fetch result or an escalation
to the browser tier. -/
theorem crawlWebsite_cases (u domain : String) (env : CrawlEnv)
    (hu : u.isEmpty = false) (hhost : env.urlHost = some domain) :
    (crawlWebsite (some u) env =
      (buildCrawlResult
        [{ url := startUrlOf u, title := extractTitle (simpleFetch env.network).html,
           html := (simpleFetch env.network).html }]
        (simpleFetch env.network).text domain,
       { fetchCalls := 1, playwrightCalls := 0, browserLaunches := 0, browserCloses := 0 }) ∧
      (simpleFetch env.network).success = true ∧
      isBlockedHtml (simpleFetch env.network).html = false) ∨
    crawlWebsite (some u) env = escalate (startUrlOf u) domain env.browser := by
  simp only [crawlWebsite, hu, hhost, Bool.false_eq_true, if_false]
  split
  · next hcond =>
    split
    · next hnb =>
      left
      refine ⟨rfl, ?_, ?_⟩
      · simp only [Bool.and_eq_true] at hcond
        exact hcond.1.1
      · simpa using hnb
    · right; rfl
  · right; rfl

/-- With a usable direct fetch the engine takes the single-page branch. -/
theorem crawlWebsite_usable (u domain : String) (env : CrawlEnv)
    (hu : u.isEmpty = false) (hhost : env.urlHost = some domain)
    (hs : (simpleFetch env.network).success = true)
    (hlen : 5000 ≤ (simpleFetch env.network).html.length)
    (hblocked : isBlockedHtml (simpleFetch env.network).html = false) :
    crawlWebsite (some u) env =
      (buildCrawlResult
        [{ url := startUrlOf u, title := extractTitle (simpleFetch env.network).html,
           html := (simpleFetch env.network).html }]
        (simpleFetch env.network).text domain,
       { fetchCalls := 1, playwrightCalls := 0, browserLaunches := 0, browserCloses := 0 }) := by
  have h0 : ("" : String).length = 0 := rfl
  have hne : (simpleFetch env.network).html ≠ "" := by
    intro h
    rw [h] at hlen
    omega
  have hgt : 1000 < (simpleFetch env.network).html.length := by omega
  simp [crawlWebsite, hu, hhost, hs, hne, hgt, hblocked]

/-! ### Helper lemmas for evaluating the string scans on the concrete
witness inputs (whose lengths put direct kernel evaluation out of reach) -/

theorem containsAt_nil_eq_false (c : Char) (pat : List Char) :
    containsAt (c :: pat) [] = false := rfl

theorem containsAt_replicate_eq_false {c a : Char} (pat : List Char)
    (hca : (c == a) = false) (n : Nat) :
    containsAt (c :: pat) (List.replicate n a) = false := by
  induction n with
  | zero => rfl
  | succ n ih => simp [List.replicate_succ, containsAt, List.isPrefixOf, hca, ih]

theorem containsAt_append_eq_false {pat : List Char} : ∀ {l1 : List Char} {l2 : List Char},
    (l1.tails.all fun t => !pat.isPrefixOf (t ++ l2)) = true →
    containsAt pat l2 = false →
    containsAt pat (l1 ++ l2) = false
  | [], l2, _, h2 => h2
  | x :: xs, l2, h1, h2 => by
    rw [List.tails_cons, List.all_cons] at h1
    have hhead := (Bool.and_eq_true _ _).mp h1 |>.1
    have htail := (Bool.and_eq_true _ _).mp h1 |>.2
    have ih := @containsAt_append_eq_false pat xs l2 htail h2
    simp only [List.cons_append, containsAt, Bool.or_eq_false_iff]
    constructor
    · simpa using hhead
    · exact ih

theorem dropWhile_eq_self_of_all {p : Char → Bool} {l : List Char}
    (h : ∀ c ∈ l, p c = false) : l.dropWhile p = l := by
  cases l with
  | nil => rfl
  | cons x xs => simp [List.dropWhile, h x (by simp)]

theorem jsTrim_mk_id {l : List Char} (h : ∀ c ∈ l, jsWs c = false) :
    jsTrim (String.mk l) = String.mk l := by
  unfold jsTrim
  rw [show (String.mk l).data = l from rfl]
  rw [dropWhile_eq_self_of_all h]
  rw [dropWhile_eq_self_of_all (fun c hc => h c (List.mem_reverse.mp hc))]
  rw [List.reverse_reverse]

theorem stripTagsGo_id {l : List Char} (h : ∀ c ∈ l, c ≠ '<') :
    stripTagsGo false l = l := by
  induction l with
  | nil => rfl
  | cons x xs ih =>
    have hx : x ≠ '<' := h x (by simp)
    simp only [stripTagsGo, if_neg hx]
    rw [ih fun c hc => h c (by simp [hc])]

theorem collapseWsAux_id {l : List Char} (h : ∀ c ∈ l, jsWs c = false) :
    collapseWsAux false l = l := by
  induction l with
  | nil => rfl
  | cons x xs ih =>
    simp only [collapseWsAux, h x (by simp), Bool.false_eq_true, if_false]
    rw [ih fun c hc => h c (by simp [hc])]

theorem fetchText_mk_id {l : List Char} (hws : ∀ c ∈ l, jsWs c = false)
    (hlt : ∀ c ∈ l, c ≠ '<') : fetchText (String.mk l) = String.mk l := by
  unfold fetchText
  rw [show (String.mk l).data = l from rfl, stripTagsGo_id hlt, collapseWsAux_id hws,
    jsTrim_mk_id hws]

theorem jsToLower_mk_id {l : List Char} (h : ∀ c ∈ l, c.toLower = c) :
    jsToLower (String.mk l) = String.mk l := by
  unfold jsToLower
  rw [show (String.mk l).data = l from rfl, List.map_congr_left h]
  simp

/-! ### Claim theorems for the acquisition engine -/

/-- C1: whenever the direct fetch tier returns success with content of
length at least 5000 containing none of the block-page markers, the engine
returns the single-page result built from that fetched content alone (the
fetched page with its extracted title, and the fetched plain text as the
content) and the browser tier is never invoked. -/
theorem direct_fetch_tier_skip (u domain : String) (env : CrawlEnv)
    (hu : u.isEmpty = false) (hhost : env.urlHost = some domain)
    (hs : (simpleFetch env.network).success = true)
    (hlen : 5000 ≤ (simpleFetch env.network).html.length)
    (hm1 : jsIncludes (simpleFetch env.network).html "403 Forbidden" = false)
    (hm2 : jsIncludes (simpleFetch env.network).html "Access Denied" = false)
    (hm3 : jsIncludes (simpleFetch env.network).html "captcha" = false)
    (hm4 : jsIncludes (simpleFetch env.network).html "Cloudflare" = false) :
    crawlWebsite (some u) env =
      (buildCrawlResult
        [{ url := startUrlOf u, title := extractTitle (simpleFetch env.network).html,
           html := (simpleFetch env.network).html }]
        (simpleFetch env.network).text domain,
       { fetchCalls := 1, playwrightCalls := 0, browserLaunches := 0, browserCloses := 0 }) ∧
    (crawlWebsite (some u) env).1.pages.length = 1 ∧
    (crawlWebsite (some u) env).2.playwrightCalls = 0 ∧
    (crawlWebsite (some u) env).2.browserLaunches = 0 := by
  have hblocked : isBlockedHtml (simpleFetch env.network).html = false := by
    simp [isBlockedHtml, hm1, hm2, hm3, hm4]
    omega
  have hmain := crawlWebsite_usable u domain env hu hhost hs hlen hblocked
  refine ⟨hmain, ?_, ?_, ?_⟩
  · rw [hmain]
    rfl
  · rw [hmain]
  · rw [hmain]

/-- C2: whenever the direct fetch tier fails (its returned success is
false, as a timeout produces), the engine invokes the browser rendering
tier exactly once and returns that tier's result, which may be empty. -/
theorem direct_fetch_failure_escalates (u domain : String) (env : CrawlEnv)
    (hu : u.isEmpty = false) (hhost : env.urlHost = some domain)
    (hf : (simpleFetch env.network).success = false) :
    (crawlWebsite (some u) env).2.playwrightCalls = 1 ∧
    (crawlWebsite (some u) env).1 =
      (crawlWithPlaywright (startUrlOf u) domain env.browser).1 := by
  have hesc : crawlWebsite (some u) env = escalate (startUrlOf u) domain env.browser := by
    rcases crawlWebsite_cases u domain env hu hhost with ⟨_, hs, _⟩ | hesc
    · rw [hf] at hs; cases hs
    · exact hesc
  rw [hesc]
  exact ⟨escalate_playwrightCalls _ _ _, escalate_result _ _ _⟩

/-- C3: the engine never raises - it is a total function of the
environment - and every unrecoverable error at any tier (the URL
constructor throwing, or an escalation whose browser tier ends in an
error, a navigation timeout after a blocked fetch included) is caught at
the engine boundary, the returned result being empty-but-valid: success
indicator false, empty page list, every metadata feature flag false. -/
theorem engine_error_containment (url : Option String) (env : CrawlEnv)
    (h : env.urlHost = none ∨
      ((crawlWebsite url env).2.playwrightCalls = 1 ∧ env.browser.isError = true)) :
    (crawlWebsite url env).1.emptyValid := by
  rcases url with _ | u
  · exact emptyValid_emptyCrawlResult
  · by_cases hu : u.isEmpty
    · have hempty : crawlWebsite (some u) env = (emptyCrawlResult, noTierTrace) := by
        simp [crawlWebsite, hu]
      rw [hempty]
      exact emptyValid_emptyCrawlResult
    · rw [Bool.not_eq_true] at hu
      cases hhost : env.urlHost with
      | none =>
        have hempty : crawlWebsite (some u) env = (emptyCrawlResult, noTierTrace) := by
          simp [crawlWebsite, hu, hhost]
        rw [hempty]
        exact emptyValid_emptyCrawlResult
      | some domain =>
        rcases h with h | ⟨hpc, hberr⟩
        · rw [h] at hhost; cases hhost
        · rcases crawlWebsite_cases u domain env hu hhost with ⟨heq, _, _⟩ | hesc
          · rw [heq] at hpc
            cases hpc
          · rw [hesc, escalate_error_result _ _ _ hberr]
            exact emptyValid_emptyCrawlResult

/-- C10: a missing or empty website URL returns the empty result at once,
with no tier invoked: no direct fetch, no browser session, and the trace
records zero invocations of anything. -/
theorem falsy_url_short_circuit (url : Option String) (env : CrawlEnv)
    (h : url = none ∨ url = some "") :
    crawlWebsite url env = (emptyCrawlResult, noTierTrace) ∧
    (crawlWebsite url env).2.fetchCalls = 0 ∧
    (crawlWebsite url env).2.playwrightCalls = 0 ∧
    (crawlWebsite url env).2.browserLaunches = 0 := by
  have hempty : crawlWebsite url env = (emptyCrawlResult, noTierTrace) := by
    rcases h with h | h <;> rw [h] <;> rfl
  rw [hempty]
  exact ⟨rfl, rfl, rfl, rfl⟩

/-- C6 (evaluation of the code at the failing input): the browser tier
does close the session on a navigation failure, but an error thrown by
browser.newContext or context.newPage right after a successful launch
jumps to the outer catch before the inner try/finally is entered, and the
acquired session is never closed - an exit path that leaks the browser
session, contradicting the guaranteed-release claim. -/
theorem browser_session_release_gap :
    ((crawlWithPlaywright "https://example.com" "example.com"
        (BrowserOutcome.navError "page.goto: Timeout 15000ms exceeded")).2.closed = true) ∧
    ((crawlWithPlaywright "https://example.com" "example.com"
        (BrowserOutcome.setupError "browser has been closed")).2.launched = true) ∧
    ((crawlWithPlaywright "https://example.com" "example.com"
        (BrowserOutcome.setupError "browser has been closed")).2.closed = false) :=
  ⟨rfl, rfl, rfl⟩

/-- C9: the metadata feature flags follow the fixed lexical rules -
contact-form iff the content has "contact" and ("form" or "submit"),
booking-widget iff "book" and ("appointment" or "schedule"), chat-widget
iff "chat" or a chat-vendor token, all matched on the lowercased result
content - and consequently a direct fetch of an 8000-character page whose
content carries "contact" and "submit" but no block marker and no booking
token yields hasContactForm true, hasBookingWidget false, with no
escalation. -/
theorem metadata_feature_flags :
    (∀ (pages : List PageRecord) (allHtml domain : String),
      ((buildCrawlResult pages allHtml domain).effHasContactForm = true ↔
        (jsIncludes (jsToLower allHtml) "contact" = true ∧
          (jsIncludes (jsToLower allHtml) "form" = true ∨
           jsIncludes (jsToLower allHtml) "submit" = true))) ∧
      ((buildCrawlResult pages allHtml domain).effHasBookingWidget = true ↔
        (jsIncludes (jsToLower allHtml) "book" = true ∧
          (jsIncludes (jsToLower allHtml) "appointment" = true ∨
           jsIncludes (jsToLower allHtml) "schedule" = true))) ∧
      ((buildCrawlResult pages allHtml domain).effHasChatWidget = true ↔
        (jsIncludes (jsToLower allHtml) "chat" = true ∨
         jsIncludes (jsToLower allHtml) "intercom" = true ∨
         jsIncludes (jsToLower allHtml) "drift" = true))) ∧
    (∀ (u domain : String) (env : CrawlEnv),
      u.isEmpty = false → env.urlHost = some domain →
      (simpleFetch env.network).success = true →
      (simpleFetch env.network).html.length = 8000 →
      jsIncludes (simpleFetch env.network).html "403 Forbidden" = false →
      jsIncludes (simpleFetch env.network).html "Access Denied" = false →
      jsIncludes (simpleFetch env.network).html "captcha" = false →
      jsIncludes (simpleFetch env.network).html "Cloudflare" = false →
      jsIncludes (jsToLower (simpleFetch env.network).text) "contact" = true →
      jsIncludes (jsToLower (simpleFetch env.network).text) "submit" = true →
      jsIncludes (jsToLower (simpleFetch env.network).text) "book" = false →
      (crawlWebsite (some u) env).1.effHasContactForm = true ∧
      (crawlWebsite (some u) env).1.effHasBookingWidget = false ∧
      (crawlWebsite (some u) env).2.playwrightCalls = 0) := by
  constructor
  · intro pages allHtml domain
    refine ⟨?_, ?_, ?_⟩ <;>
      simp [buildCrawlResult, CrawlResult.effHasContactForm,
        CrawlResult.effHasBookingWidget, CrawlResult.effHasChatWidget,
        Bool.and_eq_true, Bool.or_eq_true, or_assoc]
  · intro u domain env hu hhost hs hlen8 hm1 hm2 hm3 hm4 hcontact hsubmit hbook
    have hblocked : isBlockedHtml (simpleFetch env.network).html = false := by
      simp [isBlockedHtml, hm1, hm2, hm3, hm4]
      omega
    have hmain := crawlWebsite_usable u domain env hu hhost hs (by omega) hblocked
    rw [hmain]
    refine ⟨?_, ?_, rfl⟩
    · simp [buildCrawlResult, CrawlResult.effHasContactForm, hcontact, hsubmit]
    · simp [buildCrawlResult, CrawlResult.effHasBookingWidget, hbook]

/-! ### Witnesses for the engine claims -/

/-- C1 witness: a concrete 8000-character marker-free page is served by the
direct fetch tier; the engine returns the single-page result and never
reaches Playwright. -/
theorem direct_fetch_tier_skip_witness :
    (crawlWebsite (some "example.com") w1Env).2.playwrightCalls = 0 ∧
    (crawlWebsite (some "example.com") w1Env).1.pages.length = 1 := by
  have hlen : 5000 ≤ (simpleFetch w1Env.network).html.length := by
    show 5000 ≤ (List.replicate 8000 'a').length
    rw [List.length_replicate]
    omega
  have hm1 : jsIncludes (simpleFetch w1Env.network).html "403 Forbidden" = false := by
    show containsAt ('4' :: "03 Forbidden".data) (List.replicate 8000 'a') = false
    exact containsAt_replicate_eq_false _ (by decide) 8000
  have hm2 : jsIncludes (simpleFetch w1Env.network).html "Access Denied" = false := by
    show containsAt ('A' :: "ccess Denied".data) (List.replicate 8000 'a') = false
    exact containsAt_replicate_eq_false _ (by decide) 8000
  have hm3 : jsIncludes (simpleFetch w1Env.network).html "captcha" = false := by
    show containsAt ('c' :: "aptcha".data) (List.replicate 8000 'a') = false
    exact containsAt_replicate_eq_false _ (by decide) 8000
  have hm4 : jsIncludes (simpleFetch w1Env.network).html "Cloudflare" = false := by
    show containsAt ('C' :: "loudflare".data) (List.replicate 8000 'a') = false
    exact containsAt_replicate_eq_false _ (by decide) 8000
  have h := direct_fetch_tier_skip "example.com" "example.com" w1Env (by decide) rfl rfl
    hlen hm1 hm2 hm3 hm4
  exact ⟨h.2.2.1, h.2.1⟩

/-- C2 witness: the direct fetch aborts on its timeout for a concrete URL;
the engine runs Playwright exactly once and hands back its result. -/
theorem direct_fetch_failure_escalates_witness :
    (crawlWebsite (some "example.com") w2Env).2.playwrightCalls = 1 ∧
    (crawlWebsite (some "example.com") w2Env).1 =
      (crawlWithPlaywright (startUrlOf "example.com") "example.com" w2Env.browser).1 :=
  direct_fetch_failure_escalates "example.com" "example.com" w2Env (by decide) rfl rfl

/-- C3 witness: the spec's end-to-end scenario - a 3000-character page
containing "Access Denied" is classified blocked, Playwright is invoked
and its navigation times out, and the final result is empty-but-valid. -/
theorem engine_error_containment_witness :
    (crawlWebsite (some "blocked.example.com") w3Env).1.emptyValid := by
  have hm1 : jsIncludes (simpleFetch w3Env.network).html "403 Forbidden" = false := by
    show containsAt "403 Forbidden".data
      ("Access Denied".data ++ List.replicate 2987 'a') = false
    exact containsAt_append_eq_false (by decide)
      (containsAt_replicate_eq_false _ (by decide) 2987)
  have hm2 : jsIncludes (simpleFetch w3Env.network).html "Access Denied" = true := by
    decide
  have hblocked : isBlockedHtml (simpleFetch w3Env.network).html = true := by
    simp [isBlockedHtml, hm1, hm2]
  rcases crawlWebsite_cases "blocked.example.com" "blocked.example.com" w3Env
      (by decide) rfl with ⟨_, _, hbl⟩ | hesc
  · rw [hblocked] at hbl
    cases hbl
  · have hpc : (crawlWebsite (some "blocked.example.com") w3Env).2.playwrightCalls = 1 := by
      rw [hesc]
      exact escalate_playwrightCalls _ _ _
    exact engine_error_containment _ _ (Or.inr ⟨hpc, rfl⟩)

/-- C10 witness: a missing website URL returns the empty result with every
tier-invocation counter at zero. -/
theorem falsy_url_short_circuit_witness :
    crawlWebsite none w2Env = (emptyCrawlResult, noTierTrace) ∧
    (crawlWebsite none w2Env).2.fetchCalls = 0 ∧
    (crawlWebsite none w2Env).2.playwrightCalls = 0 ∧
    (crawlWebsite none w2Env).2.browserLaunches = 0 :=
  falsy_url_short_circuit none w2Env (Or.inl rfl)

/-- C9 witness: the spec's scenario page - 8000 characters containing
"contact" and "submit", no block marker, no booking token - yields
hasContactForm true, hasBookingWidget false, with no escalation. -/
theorem metadata_feature_flags_witness :
    (crawlWebsite (some "example.com") w9Env).1.effHasContactForm = true ∧
    (crawlWebsite (some "example.com") w9Env).1.effHasBookingWidget = false ∧
    (crawlWebsite (some "example.com") w9Env).2.playwrightCalls = 0 := by
  have hchars : ∀ c ∈ wData9, jsWs c = false ∧ c ≠ '<' ∧ c.toLower = c := by
    intro c hc
    rw [wData9, List.mem_append] at hc
    rcases hc with hc | hc
    · revert hc
      revert c
      decide
    · rw [List.eq_of_mem_replicate hc]
      decide
  have htext : (simpleFetch w9Env.network).text = wHtml9 := by
    show fetchText (String.mk wData9) = String.mk wData9
    exact fetchText_mk_id (fun c hc => (hchars c hc).1) (fun c hc => (hchars c hc).2.1)
  have hlower : jsToLower wHtml9 = wHtml9 := by
    show jsToLower (String.mk wData9) = String.mk wData9
    exact jsToLower_mk_id fun c hc => (hchars c hc).2.2
  have hlen : (simpleFetch w9Env.network).html.length = 8000 := by
    show wData9.length = 8000
    rw [wData9, List.length_append, List.length_replicate]
    rfl
  have hm1 : jsIncludes (simpleFetch w9Env.network).html "403 Forbidden" = false := by
    show containsAt "403 Forbidden".data
      ("contactsubmit".data ++ List.replicate 7987 'a') = false
    exact containsAt_append_eq_false (by decide)
      (containsAt_replicate_eq_false _ (by decide) 7987)
  have hm2 : jsIncludes (simpleFetch w9Env.network).html "Access Denied" = false := by
    show containsAt "Access Denied".data
      ("contactsubmit".data ++ List.replicate 7987 'a') = false
    exact containsAt_append_eq_false (by decide)
      (containsAt_replicate_eq_false _ (by decide) 7987)
  have hm3 : jsIncludes (simpleFetch w9Env.network).html "captcha" = false := by
    show containsAt "captcha".data
      ("contactsubmit".data ++ List.replicate 7987 'a') = false
    exact containsAt_append_eq_false (by decide)
      (containsAt_replicate_eq_false _ (by decide) 7987)
  have hm4 : jsIncludes (simpleFetch w9Env.network).html "Cloudflare" = false := by
    show containsAt "Cloudflare".data
      ("contactsubmit".data ++ List.replicate 7987 'a') = false
    exact containsAt_append_eq_false (by decide)
      (containsAt_replicate_eq_false _ (by decide) 7987)
  have hcontact : jsIncludes (jsToLower (simpleFetch w9Env.network).text) "contact" = true := by
    rw [htext, hlower]
    decide
  have hsubmit : jsIncludes (jsToLower (simpleFetch w9Env.network).text) "submit" = true := by
    rw [htext, hlower]
    decide
  have hbook : jsIncludes (jsToLower (simpleFetch w9Env.network).text) "book" = false := by
    rw [htext, hlower]
    show containsAt "book".data
      ("contactsubmit".data ++ List.replicate 7987 'a') = false
    exact containsAt_append_eq_false (by decide)
      (containsAt_replicate_eq_false _ (by decide) 7987)
  exact metadata_feature_flags.2 "example.com" "example.com" w9Env (by decide) rfl rfl
    hlen hm1 hm2 hm3 hm4 hcontact hsubmit hbook

/-! ### Claim theorems for the orchestrator -/

/-- C4: every enrichment unit is all-or-nothing on its record - either the
whole extracted signal set (emails, phones, socials, websiteSignals,
techSignals) is merged into the record, or the record comes back exactly
as it went in (the no-content case and every throwing case, which the
unit's catch turns into a logged warning); no run leaves the record
partially mutated. -/
theorem enrichment_unit_atomic (env : CrawlEnv) (ex : ExtractorEnv) (lead : Lead) :
    enrichUnit env ex lead = lead ∨
    (∃ emails phones socials tech,
      ex.emails = Except.ok emails ∧ ex.phones = Except.ok phones ∧
      ex.socials = Except.ok socials ∧ ex.tech = Except.ok tech ∧
      enrichUnit env ex lead =
        mergeSignals (crawlWebsite (some lead.website) env).1
          emails phones socials tech lead) := by
  unfold enrichUnit enrichBody
  by_cases hh : ((crawlWebsite (some lead.website) env).1.htmlContent != "") = true
  · rcases hem : ex.emails with e | emails
    · left
      simp [hh, hem, Except.bind]
    · rcases hph : ex.phones with e | phones
      · left
        simp [hh, hem, hph, Except.bind]
      · rcases hso : ex.socials with e | socials
        · left
          simp [hh, hem, hph, hso, Except.bind]
        · rcases hte : ex.tech with e | tech
          · left
            simp [hh, hem, hph, hso, hte, Except.bind]
          · right
            refine ⟨emails, phones, socials, tech, rfl, rfl, rfl, rfl, ?_⟩
            simp [hh]
  · left
    rw [Bool.not_eq_true] at hh
    simp [hh]

/-! helper lemmas for the batch controller -/

theorem enrichPhase_results {α β : Type} (f : α → β) :
    ∀ units : List α, (enrichPhase f units).1 = units.map f
  | [] => rfl
  | [_] => rfl
  | a :: b :: rest => by
    simp [enrichPhase, enrichPhase_results f rest]

theorem enrichBatches_flatten {α : Type} :
    ∀ units : List α, (enrichBatches units).flatten = units
  | [] => rfl
  | [_] => rfl
  | a :: b :: rest => by
    simp [enrichBatches, enrichBatches_flatten rest]

theorem enrichPhase_grouped {α β : Type} (f : α → β) :
    ∀ units : List α,
      (enrichPhase f units).1 = ((enrichBatches units).map (List.map f)).flatten
  | [] => rfl
  | [_] => rfl
  | a :: b :: rest => by
    simp [enrichPhase, enrichBatches, enrichPhase_grouped f rest]

theorem enrichBatches_size {α : Type} :
    ∀ units : List α,
      ((enrichBatches units).all fun bt => decide (bt.length ≤ enrichmentBatchSize)) = true
  | [] => rfl
  | [_] => rfl
  | a :: b :: rest => by
    simp only [enrichBatches, List.all_cons, enrichBatches_size rest]
    rfl

theorem enrichBatches_length_pos {α : Type} (a : α) (l : List α) :
    1 ≤ (enrichBatches (a :: l)).length := by
  cases l <;> simp [enrichBatches]

theorem enrichPhase_pacing {α β : Type} (f : α → β) :
    ∀ units : List α,
      (enrichPhase f units).2 = enrichmentPacingMs * ((enrichBatches units).length - 1)
  | [] => rfl
  | [_] => rfl
  | a :: b :: rest => by
    cases rest with
    | nil => rfl
    | cons c cs =>
      have ih := enrichPhase_pacing f (c :: cs)
      have hpos := enrichBatches_length_pos c cs
      have hpos2 := hpos
      simp [enrichPhase, enrichBatches, enrichmentPacingMs, ih]
      omega

/-- C5: the controller partitions the units into consecutive batches of
size 2 (the batches concatenate back to the unit sequence, and every batch
holds at most 2 units, so at most 2 units are ever in flight), finishes a
batch before the next one starts, sleeps 500ms between consecutive batches
(and only there), and each unit's outcome is the function of that unit
alone - the outcome list is exactly the map of the per-unit work, so a
failing unit (whose own catch makes the work total) neither prevents its
batch sibling nor any later batch from completing. -/
theorem batch_concurrency_controller {α β : Type} (f : α → β) (units : List α) :
    (enrichPhase f units).1 = units.map f ∧
    (enrichPhase f units).1 = ((enrichBatches units).map (List.map f)).flatten ∧
    (enrichBatches units).flatten = units ∧
    ((enrichBatches units).all fun bt => decide (bt.length ≤ enrichmentBatchSize)) = true ∧
    (enrichPhase f units).2 = enrichmentPacingMs * ((enrichBatches units).length - 1) ∧
    (∀ workItems : List (Lead × CrawlEnv × ExtractorEnv),
      (enrichPhase (fun w => enrichUnit w.2.1 w.2.2 w.1) workItems).1 =
        workItems.map fun w => enrichUnit w.2.1 w.2.2 w.1) :=
  ⟨enrichPhase_results f units, enrichPhase_grouped f units,
   enrichBatches_flatten units, enrichBatches_size units, enrichPhase_pacing f units,
   fun workItems => enrichPhase_results _ workItems⟩

/-! helper lemmas for the sequential rate-limited caller -/

theorem aiPhase_times_length (k : Bool) (p : String → Outreach) :
    ∀ (records : List (Lead × AIRecordEnv)) (t : Nat),
      (aiPhase k p records t).2.length = records.length
  | [], _ => rfl
  | (_, _) :: rest, t => by
    simp [aiPhase, aiPhase_times_length k p rest]

theorem aiPhase_leads_length (k : Bool) (p : String → Outreach) :
    ∀ (records : List (Lead × AIRecordEnv)) (t : Nat),
      (aiPhase k p records t).1.length = records.length
  | [], _ => rfl
  | (_, _) :: rest, t => by
    simp [aiPhase, aiPhase_leads_length k p rest]

theorem aiPhase_chain_aux (p : String → Outreach) :
    ∀ (records : List (Lead × AIRecordEnv)) (t : Nat),
      List.Chain' (fun a b => a + aiDelayMs ≤ b) (aiPhase true p records t).2 ∧
      ∀ x ∈ (aiPhase true p records t).2, t ≤ x
  | [], _ => ⟨List.chain'_nil, by simp [aiPhase]⟩
  | [(lead, aenv)], t => by
    constructor
    · simp [aiPhase]
    · intro x hx
      simp [aiPhase] at hx
      omega
  | (l0, a0) :: (l1, a1) :: rest, t => by
    have ih := aiPhase_chain_aux p ((l1, a1) :: rest) (t + a0.callMs + aiDelayMs)
    have hshape : (aiPhase true p ((l0, a0) :: (l1, a1) :: rest) t).2 =
        t :: (aiPhase true p ((l1, a1) :: rest) (t + a0.callMs + aiDelayMs)).2 := by
      simp [aiPhase]
    rw [hshape]
    constructor
    · rw [List.chain'_cons']
      refine ⟨?_, ih.1⟩
      intro h hh
      have hmem : h ∈ (aiPhase true p ((l1, a1) :: rest) (t + a0.callMs + aiDelayMs)).2 :=
        List.mem_of_mem_head? hh
      have := ih.2 h hmem
      omega
    · intro x hx
      rcases List.mem_cons.mp hx with hx | hx
      · omega
      · have := ih.2 x hx
        omega

theorem aiPhase_failed_untouched (p : String → Outreach) :
    ∀ (records : List (Lead × AIRecordEnv)) (t i : Nat) (lead : Lead) (aenv : AIRecordEnv),
      records[i]? = some (lead, aenv) → aenv.event.isFail = true →
      (aiPhase true p records t).1[i]? = some lead
  | [], _, i, _, _, h, _ => by simp at h
  | (l0, a0) :: rest, t, 0, lead, aenv, h, hfail => by
    simp only [List.getElem?_cons_zero, Option.some_inj, Prod.mk.injEq] at h
    obtain ⟨h1, h2⟩ := h
    subst h1
    subst h2
    obtain ⟨ev, ms⟩ := a0
    cases ev with
    | ok s => simp [AIEvent.isFail] at hfail
    | httpError st stx => simp [aiPhase, generateOutreach, emptyOutreach]
    | netError m => simp [aiPhase, generateOutreach, emptyOutreach]
  | (l0, a0) :: rest, t, i + 1, lead, aenv, h, hfail => by
    simp only [List.getElem?_cons_succ] at h
    have ih := fun t' => aiPhase_failed_untouched p rest t' i lead aenv h hfail
    simp only [aiPhase, List.getElem?_cons_succ]
    exact ih _

/-- C7: over the ordered record sequence the generation calls are strictly
sequential with at least 1000ms between consecutive call issuances - the
spacing holds whatever each call's outcome, a failing call included; every
record receives a call slot (one issue time per record); and a record
whose call fails keeps exactly its original state (the failure is caught
inside generateOutreach and contributes an empty outreach, so lead.ai is
never set for it), without skipping any later record. -/
theorem sequential_rate_limited_caller (p : String → Outreach)
    (records : List (Lead × AIRecordEnv)) (t0 : Nat) :
    List.Chain' (fun a b => a + aiDelayMs ≤ b) (aiPhase true p records t0).2 ∧
    (aiPhase true p records t0).2.length = records.length ∧
    (aiPhase true p records t0).1.length = records.length ∧
    (∀ (i : Nat) (lead : Lead) (aenv : AIRecordEnv),
      records[i]? = some (lead, aenv) → aenv.event.isFail = true →
      (aiPhase true p records t0).1[i]? = some lead) :=
  ⟨(aiPhase_chain_aux p records t0).1,
   aiPhase_times_length true p records t0,
   aiPhase_leads_length true p records t0,
   fun i lead aenv h hf => aiPhase_failed_untouched p records t0 i lead aenv h hf⟩

/-- C7 witness: three concrete records [A, B, C] where the call for B
fails in transport; the issue times are 1000ms-spaced and B's lead record
is returned untouched. -/
theorem sequential_rate_limited_caller_witness :
    List.Chain' (fun a b => a + aiDelayMs ≤ b) (aiPhase true wParseOutreach wAIRecords 0).2 ∧
    (aiPhase true wParseOutreach wAIRecords 0).2.length = 3 ∧
    (aiPhase true wParseOutreach wAIRecords 0).1[1]? = some wLeadB := by
  have h := sequential_rate_limited_caller wParseOutreach wAIRecords 0
  refine ⟨h.1, ?_, ?_⟩
  · rw [h.2.1]
    rfl
  · exact h.2.2.2 1 wLeadB { event := .netError "fetch failed", callMs := 40 } rfl rfl

/-- C8: each external-crawler invocation writes the single JSON request
(url and timeout) to the process's input channel and closes it; on a clean
exit in time only the last line of the accumulated output is parsed as the
JSON response (every earlier line is diagnostic noise the parse never
sees), an unparseable final line degrading to a failure value; when no
close event arrives before the configured timeout plus the 5-second grace
period the process is killed and a "Crawl timeout" failure is returned;
and no path rejects - every outcome that is not a parsed response is a
success-false value carrying the error. -/
theorem crawl4ai_crawlUrl_contract (url : String) (timeout : Nat)
    (parseJson : String → Option CrawlResponse) (ev : ProcEvent) :
    ((crawlUrl url timeout parseJson ev).2.stdinData = jsonRequest url timeout ∧
     (crawlUrl url timeout parseJson ev).2.stdinClosed = true) ∧
    (∀ code stdout stderr elapsedMs,
      ev = ProcEvent.closes code stdout stderr elapsedMs →
      elapsedMs < (timeout + crawlGraceSecs) * 1000 → code = 0 →
      ((∀ resp, parseJson (lastLine stdout) = some resp →
          (crawlUrl url timeout parseJson ev).1 = resp) ∧
       (parseJson (lastLine stdout) = none →
          (crawlUrl url timeout parseJson ev).1.success = false))) ∧
    (∀ code stdout stderr elapsedMs,
      ev = ProcEvent.closes code stdout stderr elapsedMs →
      (timeout + crawlGraceSecs) * 1000 ≤ elapsedMs →
      (crawlUrl url timeout parseJson ev).1 =
        { success := false, content := "", error := "Crawl timeout" } ∧
      (crawlUrl url timeout parseJson ev).2.killed = true) ∧
    (ev = ProcEvent.hangs →
      (crawlUrl url timeout parseJson ev).1 =
        { success := false, content := "", error := "Crawl timeout" } ∧
      (crawlUrl url timeout parseJson ev).2.killed = true) ∧
    ((crawlUrl url timeout parseJson ev).1.success = false ∨
      ∃ code stdout stderr elapsedMs resp,
        ev = ProcEvent.closes code stdout stderr elapsedMs ∧
        parseJson (lastLine stdout) = some resp ∧
        (crawlUrl url timeout parseJson ev).1 = resp) := by
  refine ⟨⟨?_, ?_⟩, ?_, ?_, ?_, ?_⟩
  · cases ev with
    | hangs => rfl
    | closes code stdout stderr elapsedMs =>
      by_cases ht : elapsedMs < (timeout + crawlGraceSecs) * 1000
      · by_cases hc : code = 0
        · subst hc
          cases hp : parseJson (lastLine stdout) <;> simp [crawlUrl, ht, hp]
        · simp [crawlUrl, ht, hc]
      · simp [crawlUrl, ht]
  · cases ev with
    | hangs => rfl
    | closes code stdout stderr elapsedMs =>
      by_cases ht : elapsedMs < (timeout + crawlGraceSecs) * 1000
      · by_cases hc : code = 0
        · subst hc
          cases hp : parseJson (lastLine stdout) <;> simp [crawlUrl, ht, hp]
        · simp [crawlUrl, ht, hc]
      · simp [crawlUrl, ht]
  · intro code stdout stderr elapsedMs hev ht hc
    subst hev
    subst hc
    constructor
    · intro resp hp
      simp [crawlUrl, ht, hp]
    · intro hp
      simp [crawlUrl, ht, hp]
  · intro code stdout stderr elapsedMs hev ht
    subst hev
    have ht2 : ¬ elapsedMs < (timeout + crawlGraceSecs) * 1000 := by omega
    exact ⟨by simp [crawlUrl, ht2], by simp [crawlUrl, ht2]⟩
  · intro hev
    subst hev
    exact ⟨rfl, rfl⟩
  · cases ev with
    | hangs => left; rfl
    | closes code stdout stderr elapsedMs =>
      by_cases ht : elapsedMs < (timeout + crawlGraceSecs) * 1000
      · by_cases hc : code = 0
        · subst hc
          cases hp : parseJson (lastLine stdout) with
          | none => left; simp [crawlUrl, ht, hp]
          | some resp =>
            right
            exact ⟨0, stdout, stderr, elapsedMs, resp, rfl, hp, by simp [crawlUrl, ht, hp]⟩
        · left
          simp [crawlUrl, ht, hc]
      · left
        simp [crawlUrl, ht]

/-- C8 witness: a concrete invocation whose process prints a noise line
before the JSON line and exits cleanly in time, and another that never
answers within the 35-second wall (timeout 30 plus grace 5): the first
parses only the last output line, the second is killed with a timeout
failure; both carry the written request on their trace. -/
theorem crawl4ai_crawlUrl_contract_witness :
    (crawlUrl "https://example.com" 30 wParse
        (ProcEvent.closes 0 "[FETCH] progress noise\nRESP" "" 1200)).1 =
      { success := true, content := "body", error := "" } ∧
    (crawlUrl "https://example.com" 30 wParse ProcEvent.hangs).1 =
      { success := false, content := "", error := "Crawl timeout" } ∧
    (crawlUrl "https://example.com" 30 wParse ProcEvent.hangs).2.killed = true ∧
    (crawlUrl "https://example.com" 30 wParse
        (ProcEvent.closes 0 "[FETCH] progress noise\nRESP" "" 1200)).2.stdinData =
      jsonRequest "https://example.com" 30 := by
  have hparse : wParse (lastLine "[FETCH] progress noise\nRESP") =
      some { success := true, content := "body", error := "" } := by decide
  have h1 := crawl4ai_crawlUrl_contract "https://example.com" 30 wParse
    (ProcEvent.closes 0 "[FETCH] progress noise\nRESP" "" 1200)
  have h2 := crawl4ai_crawlUrl_contract "https://example.com" 30 wParse ProcEvent.hangs
  refine ⟨?_, ?_, ?_, ?_⟩
  · exact ((h1.2.1 0 "[FETCH] progress noise\nRESP" "" 1200 rfl (by decide) rfl).1 _ hparse)
  · exact (h2.2.2.2.1 rfl).1
  · exact (h2.2.2.2.1 rfl).2
  · exact h1.1.1

end LeadGraph
